import Mathlib

/-!
The controller builder of submarine-cloud-v2: a shallow embedding of `pkg/controller/controller_builder.go`.

The builder is a Go object mutated through a pointer receiver.  Here every
method is a function from the builder's state to a `Run`: the events the call
produced (in program order), the builder's state when the call ended, and the
returned value, or the panic that ended the call.  One Go statement is one step
of the embedding, chained with `Run.next`.

Pointers are taken to be non-nil: a `BuilderConfig` is a populated value, the
way the wiring outside this file hands it over.
-/

namespace Submarine

/-! ## Data model -/

/-- The watched kinds: the Submarine custom resource and the nine kinds it owns. -/
inductive Kind
  | Submarine
  | Namespace
  | Deployment
  | Service
  | ServiceAccount
  | PersistentVolumeClaim
  | Ingress
  | IngressRoute
  | Role
  | RoleBinding
  deriving DecidableEq, Repr

/-- A clientset object, known by its identity. -/
structure Clientset where
  id : Nat
  deriving DecidableEq, Repr

/-- An informer object of the config, known by its identity. -/
structure Informer where
  id : Nat
  deriving DecidableEq, Repr

/-- The lister obtained from an informer with `.Lister()`. -/
structure Lister where
  source : Informer
  deriving DecidableEq, Repr

/-- The `HasSynced` function value of an informer (`cache.InformerSynced`). -/
structure InformerSynced where
  source : Informer
  deriving DecidableEq, Repr

/-- The call `informer.Lister()`. -/
def Informer.Lister (i : Informer) : Lister := ⟨i⟩

/-- The method value `informer.Informer().HasSynced`. -/
def Informer.HasSynced (i : Informer) : InformerSynced := ⟨i⟩

/-- A `ControllerFunc` is a Go `func()`; it is known by its identity. -/
structure ControllerFunc where
  id : Nat
  deriving DecidableEq, Repr

/-- The event recorder made by `eventBroadcaster.NewRecorder`: the component
name of its event source and the clientset whose event sink it records to. -/
structure Recorder where
  component : String
  sink : Clientset
  deriving DecidableEq, Repr

/-! ## The work queue (client-go `workqueue`, not part of the sources) -/

/-- Modelled from the spec: the per-key retry policy of §4.3, "an
exponential-backoff delay keyed by a monotonically increasing per-key failure
counter (base delay doubling up to a capped maximum)".  It is the per-key part
of the limiter of the queue; the library type of the same name is not part of
the sources. -/
structure ItemExponentialFailureRateLimiter where
  failures : List (String × Nat)
  baseDelay : Nat
  maxDelay : Nat
  deriving DecidableEq, Repr

/-- The failure counter of a key (0 when the key has none). -/
def ItemExponentialFailureRateLimiter.NumRequeues (r : ItemExponentialFailureRateLimiter) (item : String) : Nat :=
  match r.failures.lookup item with
  | some n => n
  | none => 0

/-- Modelled from the spec: the delay of the next retry of `item`, the base
delay doubled once per earlier failure and capped at the maximum; the failure
counter of the key goes up by one. -/
def ItemExponentialFailureRateLimiter.When (r : ItemExponentialFailureRateLimiter) (item : String) : Nat × ItemExponentialFailureRateLimiter :=
  let exp := r.NumRequeues item
  let r1 : ItemExponentialFailureRateLimiter :=
    { r with failures := (item, exp + 1) :: r.failures.filter (fun kv => kv.1 != item) }
  let backoff := r.baseDelay * 2 ^ exp
  if backoff > r.maxDelay then (r.maxDelay, r1) else (backoff, r1)

/-- Modelled from the spec: `Forget` "resets the retry counter for that key". -/
def ItemExponentialFailureRateLimiter.Forget (r : ItemExponentialFailureRateLimiter) (item : String) : ItemExponentialFailureRateLimiter :=
  { r with failures := r.failures.filter (fun kv => kv.1 != item) }

/-- The delays of `n` consecutive failures of `item`, oldest first, with no
`Forget` in between. -/
def ItemExponentialFailureRateLimiter.delays (r : ItemExponentialFailureRateLimiter) (item : String) : Nat → List Nat
  | 0 => []
  | n + 1 => (r.When item).1 :: ItemExponentialFailureRateLimiter.delays (r.When item).2 item n

/-- The overall part of the limiter of the queue: the token bucket
`BucketRateLimiter` of client-go (not part of the sources), one for all keys.
A token is worth `interval` units of time and the bucket holds at most `burst`
tokens; `credit` is the content of the bucket at time `last`, in units of time,
and is negative while reservations are outstanding. -/
structure BucketRateLimiter where
  interval : Nat
  burst : Nat
  last : Nat
  credit : Int
  deriving DecidableEq, Repr

/-- The call `When` on the bucket at time `now` (`Reserve().Delay()`): the
bucket refills with the time elapsed, up to `burst` tokens, one token is
taken, and the wait is the time until the bucket is back at zero. -/
def BucketRateLimiter.When (b : BucketRateLimiter) (now : Nat) : Nat × BucketRateLimiter :=
  let last := if now < b.last then now else b.last
  let elapsed := now - last
  let refilled : Int := min ((b.burst * b.interval : Nat) : Int) (b.credit + (elapsed : Int))
  let credit := refilled - (b.interval : Int)
  let wait := if credit < 0 then (-credit).toNat else 0
  (wait, { b with last := now, credit := credit })

/-- The limiter of the queue, `MaxOfRateLimiter` of client-go over the per-key
limiter and the overall bucket. -/
structure MaxOfRateLimiter where
  perItem : ItemExponentialFailureRateLimiter
  overall : BucketRateLimiter
  deriving DecidableEq, Repr

/-- The call `When(item)` at time `now`: every limiter is asked, and the delay
is the largest of the answers. -/
def MaxOfRateLimiter.When (r : MaxOfRateLimiter) (now : Nat) (item : String) :
    Nat × MaxOfRateLimiter :=
  let p := r.perItem.When item
  let o := r.overall.When now
  (max p.1 o.1, { perItem := p.2, overall := o.2 })

/-- The call `Forget(item)`: passed on to every limiter; the bucket ignores it. -/
def MaxOfRateLimiter.Forget (r : MaxOfRateLimiter) (item : String) : MaxOfRateLimiter :=
  { r with perItem := r.perItem.Forget item }

/-- The limiter after the failures of a schedule, each a time and a key. -/
def MaxOfRateLimiter.failAll (r : MaxOfRateLimiter) : List (Nat × String) → MaxOfRateLimiter
  | [] => r
  | (now, item) :: rest => MaxOfRateLimiter.failAll (r.When now item).2 rest

/-- The delays of consecutive failures of `item` at the given times, oldest
first, with no `Forget` and no failure of another key in between. -/
def MaxOfRateLimiter.delaysAt (r : MaxOfRateLimiter) (item : String) : List Nat → List Nat
  | [] => []
  | now :: rest => (r.When now item).1 :: MaxOfRateLimiter.delaysAt (r.When now item).2 item rest

/-- The waits of the bucket for reservations at the given times. -/
def BucketRateLimiter.waits (b : BucketRateLimiter) : List Nat → List Nat
  | [] => []
  | now :: rest => (b.When now).1 :: BucketRateLimiter.waits (b.When now).2 rest

/-- Modelled from the spec: the Work Queue of §4.3, "a deduplicating,
rate-limited, ordered-enough queue of keys".  `queue` holds the pending keys in
arrival order, `dirty` the keys that need processing, `processing` the keys a
worker holds.  The library type, `workqueue.RateLimitingInterface`, is not part
of the sources. -/
structure RateLimitingQueue where
  name : String
  rateLimiter : MaxOfRateLimiter
  queue : List String
  dirty : List String
  processing : List String
  shuttingDown : Bool
  deriving DecidableEq, Repr

/-- Modelled from the spec: `Enqueue(key)` of §4.3: "if key already pending or
currently being processed, no duplicate is created"; a key that arrives while
it is being processed is only marked, to be re-added when processing finishes;
after `ShutDown` no enqueue is accepted. -/
def RateLimitingQueue.Add (q : RateLimitingQueue) (item : String) : RateLimitingQueue :=
  if q.shuttingDown then q
  else if item ∈ q.dirty then q
  else if item ∈ q.processing then { q with dirty := item :: q.dirty }
  else { q with dirty := item :: q.dirty, queue := q.queue ++ [item] }

/-- The number of pending work items. -/
def RateLimitingQueue.Len (q : RateLimitingQueue) : Nat := q.queue.length

/-- Calling `Add item` on the queue `k` times in a row. -/
def RateLimitingQueue.addTimes (q : RateLimitingQueue) (item : String) : Nat → RateLimitingQueue
  | 0 => q
  | k + 1 => RateLimitingQueue.addTimes (q.Add item) item k

/-- What the surroundings of the file fix and the sources do not show: the
error `submarinescheme.AddToScheme(scheme.Scheme)` returns (`none` is `nil`),
the package constant `controllerAgentName`, and the constants of
`workqueue.DefaultControllerRateLimiter()`: the base and maximum delay of its
per-key limiter, the time per token and the size of its overall bucket.  All
times are in one unit. -/
structure Env where
  addToSchemeErr : Option String
  controllerAgentName : String
  defaultBaseDelay : Nat
  defaultMaxDelay : Nat
  bucketInterval : Nat
  bucketBurst : Nat
  deriving DecidableEq, Repr

/-- The call `workqueue.DefaultControllerRateLimiter()`: the maximum of a fresh
per-key exponential limiter and a fresh, full overall bucket, with the
constants of the library; it takes no argument. -/
def DefaultControllerRateLimiter (env : Env) : MaxOfRateLimiter :=
  { perItem :=
      { failures := [], baseDelay := env.defaultBaseDelay, maxDelay := env.defaultMaxDelay }
    overall :=
      { interval := env.bucketInterval, burst := env.bucketBurst, last := 0,
        credit := ((env.bucketBurst * env.bucketInterval : Nat) : Int) } }

/-- The call `workqueue.NewNamedRateLimitingQueue(rateLimiter, name)`: an
empty queue. -/
def NewNamedRateLimitingQueue (rateLimiter : MaxOfRateLimiter) (name : String) : RateLimitingQueue :=
  { name := name, rateLimiter := rateLimiter, queue := [], dirty := [], processing := [],
    shuttingDown := false }

/-! ## Controller, config and builder -/

/-- The `Controller` struct, with the fields the builder assigns.  A pointer or
interface field is `none` while it is `nil`. -/
structure Controller where
  kubeclientset : Option Clientset := none
  submarineclientset : Option Clientset := none
  traefikclientset : Option Clientset := none
  submarinesLister : Option Lister := none
  submarinesSynced : Option InformerSynced := none
  namespaceLister : Option Lister := none
  deploymentLister : Option Lister := none
  serviceLister : Option Lister := none
  serviceaccountLister : Option Lister := none
  persistentvolumeclaimLister : Option Lister := none
  ingressLister : Option Lister := none
  ingressrouteLister : Option Lister := none
  roleLister : Option Lister := none
  rolebindingLister : Option Lister := none
  workqueue : Option RateLimitingQueue := none
  recorder : Option Recorder := none
  incluster : Bool := false
  deriving DecidableEq, Repr

/-- The `BuilderConfig` struct, with the fields the builder reads. -/
structure BuilderConfig where
  incluster : Bool
  kubeclientset : Clientset
  submarineclientset : Clientset
  traefikclientset : Clientset
  submarineInformer : Informer
  namespaceInformer : Informer
  deploymentInformer : Informer
  serviceInformer : Informer
  serviceaccountInformer : Informer
  persistentvolumeclaimInformer : Informer
  ingressInformer : Informer
  ingressrouteInformer : Informer
  roleInformer : Informer
  rolebindingInformer : Informer
  /-- Modelled from the spec: §6 lists "per-key backoff base/cap delays" among
  the already-resolved configuration values; the declaration of `BuilderConfig`
  is not part of the sources, and no line of the builder reads these two. -/
  backoffBaseDelay : Nat
  /-- Modelled from the spec: see `backoffBaseDelay`. -/
  backoffCapDelay : Nat
  deriving DecidableEq, Repr

/-- The informer of the config for a kind. -/
def BuilderConfig.informer (c : BuilderConfig) : Kind → Informer
  | .Submarine => c.submarineInformer
  | .Namespace => c.namespaceInformer
  | .Deployment => c.deploymentInformer
  | .Service => c.serviceInformer
  | .ServiceAccount => c.serviceaccountInformer
  | .PersistentVolumeClaim => c.persistentvolumeclaimInformer
  | .Ingress => c.ingressInformer
  | .IngressRoute => c.ingressrouteInformer
  | .Role => c.roleInformer
  | .RoleBinding => c.rolebindingInformer

/-- The lister field of the controller for a kind. -/
def Controller.lister (c : Controller) : Kind → Option Lister
  | .Submarine => c.submarinesLister
  | .Namespace => c.namespaceLister
  | .Deployment => c.deploymentLister
  | .Service => c.serviceLister
  | .ServiceAccount => c.serviceaccountLister
  | .PersistentVolumeClaim => c.persistentvolumeclaimLister
  | .Ingress => c.ingressLister
  | .IngressRoute => c.ingressrouteLister
  | .Role => c.roleLister
  | .RoleBinding => c.rolebindingLister

/-- The `HasSynced` signals recorded on the controller: `submarinesSynced` is
the only field of that type the builder assigns. -/
def Controller.syncedSignals (c : Controller) : List InformerSynced :=
  c.submarinesSynced.toList

/-- The `ControllerBuilder` struct.  The `actions` map is the list of its
entries, in the order a `range` over it visits them. -/
structure ControllerBuilder where
  controller : Controller
  config : BuilderConfig
  actions : List (String × ControllerFunc)
  deriving DecidableEq, Repr

/-! ## Events and runs -/

/-- The methods of the builder that `Build` calls, its five stages. -/
inductive Stage
  | Initailize
  | AddClientsets
  | AddListers
  | RegisterEventHandlers
  | AddEventHandlers
  deriving DecidableEq, Repr

/-- The fields of the controller the builder assigns. -/
inductive Field
  | incluster
  | recorder
  | workqueue
  | kubeclientset
  | submarineclientset
  | traefikclientset
  | submarinesLister
  | submarinesSynced
  | deploymentLister
  | namespaceLister
  | serviceLister
  | serviceaccountLister
  | persistentvolumeclaimLister
  | ingressLister
  | ingressrouteLister
  | roleLister
  | rolebindingLister
  deriving DecidableEq, Repr

/-- What a call of a builder method does, one event per statement: entering a
stage, a call out of the file, an assignment to a controller field, the start
of a goroutine. -/
inductive Event
  | enter (s : Stage)
  | addToScheme
  | log (level : Nat) (msg : String)
  | newBroadcaster
  | startStructuredLogging (verbosity : Nat)
  | startRecordingToSink (sink : Clientset)
  | newRecorder (component : String)
  | newQueue (name : String)
  | set (f : Field)
  | register (k : Kind)
  | go (action : ControllerFunc)
  deriving DecidableEq, Repr

/-- The outcome of a call on the builder: the events it produced in program
order, the builder when the call ended, and the value returned, or the value
the call panicked with. -/
structure Run (α : Type) where
  events : List Event
  cb : ControllerBuilder
  result : Except String α

/-- Sequencing of statements: the next statement runs on the builder the first
left behind, unless the first panicked. -/
def Run.next {α β : Type} (r : Run α) (f : ControllerBuilder → Run β) : Run β :=
  match r.result with
  | .error e => ⟨r.events, r.cb, .error e⟩
  | .ok _ => ⟨r.events ++ (f r.cb).events, (f r.cb).cb, (f r.cb).result⟩

/-- A statement whose only effect is one event. -/
def emit (e : Event) (cb : ControllerBuilder) : Run Unit := ⟨[e], cb, .ok ()⟩

/-- An assignment `cb.controller.f = v`. -/
def assign (f : Field) (upd : Controller → Controller) (cb : ControllerBuilder) : Run Unit :=
  ⟨[.set f], { cb with controller := upd cb.controller }, .ok ()⟩

/-- The statement `return cb`. -/
def returnBuilder (cb : ControllerBuilder) : Run ControllerBuilder := ⟨[], cb, .ok cb⟩

/-- The call `utilruntime.Must(err)` of the apimachinery library: it panics
with the error when the error is not `nil`, and does nothing otherwise. -/
def Must (err : Option String) (cb : ControllerBuilder) : Run Unit :=
  match err with
  | none => ⟨[], cb, .ok ()⟩
  | some e => ⟨[], cb, .error e⟩

/-! ## The builder -/

/-- The function `NewControllerBuilder`: a zero-valued controller, the config,
an empty actions map. -/
def NewControllerBuilder (config : BuilderConfig) : ControllerBuilder :=
  { controller := {}, config := config, actions := [] }

/-- The method `Incluster`. -/
def Incluster (incluster : Bool) (cb : ControllerBuilder) : Run ControllerBuilder :=
  (assign .incluster (fun c => { c with incluster := incluster }) cb).next
    returnBuilder

/-- The method `Initailize`. -/
def Initailize (env : Env) (cb : ControllerBuilder) : Run ControllerBuilder :=
  (emit (.enter .Initailize) cb).next fun cb =>
  (emit .addToScheme cb).next fun cb =>
  (Must env.addToSchemeErr cb).next fun cb =>
  (emit (.log 4 "Creating event broadcaster") cb).next fun cb =>
  (emit .newBroadcaster cb).next fun cb =>
  (emit (.startStructuredLogging 0) cb).next fun cb =>
  (emit (.startRecordingToSink cb.config.kubeclientset) cb).next fun cb =>
  (emit (.newRecorder env.controllerAgentName) cb).next fun cb =>
  let recorder : Recorder := ⟨env.controllerAgentName, cb.config.kubeclientset⟩
  (emit (.newQueue "Submarines") cb).next fun cb =>
  let workqueue := NewNamedRateLimitingQueue (DefaultControllerRateLimiter env) "Submarines"
  (assign .incluster (fun c => { c with incluster := cb.config.incluster }) cb).next fun cb =>
  (assign .recorder (fun c => { c with recorder := some recorder }) cb).next fun cb =>
  (assign .workqueue (fun c => { c with workqueue := some workqueue }) cb).next
    returnBuilder

/-- The method `AddClientsets`. -/
def AddClientsets (cb : ControllerBuilder) : Run ControllerBuilder :=
  (emit (.enter .AddClientsets) cb).next fun cb =>
  (assign .kubeclientset
    (fun c => { c with kubeclientset := some cb.config.kubeclientset }) cb).next fun cb =>
  (assign .submarineclientset
    (fun c => { c with submarineclientset := some cb.config.submarineclientset }) cb).next fun cb =>
  (assign .traefikclientset
    (fun c => { c with traefikclientset := some cb.config.traefikclientset }) cb).next
    returnBuilder

/-- The method `AddListers`. -/
def AddListers (cb : ControllerBuilder) : Run ControllerBuilder :=
  (emit (.enter .AddListers) cb).next fun cb =>
  (assign .submarinesLister
    (fun c => { c with submarinesLister := some cb.config.submarineInformer.Lister }) cb).next fun cb =>
  (assign .submarinesSynced
    (fun c => { c with submarinesSynced := some cb.config.submarineInformer.HasSynced }) cb).next fun cb =>
  (assign .deploymentLister
    (fun c => { c with deploymentLister := some cb.config.deploymentInformer.Lister }) cb).next fun cb =>
  (assign .namespaceLister
    (fun c => { c with namespaceLister := some cb.config.namespaceInformer.Lister }) cb).next fun cb =>
  (assign .serviceLister
    (fun c => { c with serviceLister := some cb.config.serviceInformer.Lister }) cb).next fun cb =>
  (assign .serviceaccountLister
    (fun c => { c with serviceaccountLister := some cb.config.serviceaccountInformer.Lister }) cb).next fun cb =>
  (assign .persistentvolumeclaimLister
    (fun c => { c with
      persistentvolumeclaimLister := some cb.config.persistentvolumeclaimInformer.Lister }) cb).next fun cb =>
  (assign .ingressLister
    (fun c => { c with ingressLister := some cb.config.ingressInformer.Lister }) cb).next fun cb =>
  (assign .ingressrouteLister
    (fun c => { c with ingressrouteLister := some cb.config.ingressrouteInformer.Lister }) cb).next fun cb =>
  (assign .roleLister
    (fun c => { c with roleLister := some cb.config.roleInformer.Lister }) cb).next fun cb =>
  (assign .rolebindingLister
    (fun c => { c with rolebindingLister := some cb.config.rolebindingInformer.Lister }) cb).next
    returnBuilder

/-- Modelled from the spec: the ten methods `Register<Kind>EventHandlers` are
not part of the sources.  By §4.2 each one subscribes the add/update/delete
notifications of its kind; it is one registration event for the kind, and it
returns the builder. -/
def registerKind (k : Kind) (cb : ControllerBuilder) : Run ControllerBuilder :=
  (emit (.register k) cb).next returnBuilder

/-- The method `RegisterSubmarineEventHandlers`. -/
def RegisterSubmarineEventHandlers := registerKind .Submarine
/-- The method `RegisterNamespaceEventHandlers`. -/
def RegisterNamespaceEventHandlers := registerKind .Namespace
/-- The method `RegisterDeploymentEventHandlers`. -/
def RegisterDeploymentEventHandlers := registerKind .Deployment
/-- The method `RegisterServiceEventHandlers`. -/
def RegisterServiceEventHandlers := registerKind .Service
/-- The method `RegisterServiceAccountEventHandlers`. -/
def RegisterServiceAccountEventHandlers := registerKind .ServiceAccount
/-- The method `RegisterPersistentVolumeClaimEventHandlers`. -/
def RegisterPersistentVolumeClaimEventHandlers := registerKind .PersistentVolumeClaim
/-- The method `RegisterIngressEventHandlers`. -/
def RegisterIngressEventHandlers := registerKind .Ingress
/-- The method `RegisterIngressRouteEventHandlers`. -/
def RegisterIngressRouteEventHandlers := registerKind .IngressRoute
/-- The method `RegisterRoleEventHandlers`. -/
def RegisterRoleEventHandlers := registerKind .Role
/-- The method `RegisterRoleBindingEventHandlers`. -/
def RegisterRoleBindingEventHandlers := registerKind .RoleBinding

/-- The method `RegisterEventHandlers`. -/
def RegisterEventHandlers (cb : ControllerBuilder) : Run ControllerBuilder :=
  (emit (.enter .RegisterEventHandlers) cb).next fun cb =>
  (RegisterSubmarineEventHandlers cb).next fun cb =>
  (RegisterNamespaceEventHandlers cb).next fun cb =>
  (RegisterDeploymentEventHandlers cb).next fun cb =>
  (RegisterServiceEventHandlers cb).next fun cb =>
  (RegisterServiceAccountEventHandlers cb).next fun cb =>
  (RegisterPersistentVolumeClaimEventHandlers cb).next fun cb =>
  (RegisterIngressEventHandlers cb).next fun cb =>
  (RegisterIngressRouteEventHandlers cb).next fun cb =>
  (RegisterRoleEventHandlers cb).next fun cb =>
  (RegisterRoleBindingEventHandlers cb).next
    returnBuilder

/-- The loop `for _, action := range cb.actions { go action() }` over the
entries still to visit. -/
def startActions : List (String × ControllerFunc) → ControllerBuilder → Run Unit
  | [], cb => ⟨[], cb, .ok ()⟩
  | (_, action) :: rest, cb => (emit (.go action) cb).next (startActions rest)

/-- The method `AddEventHandlers`. -/
def AddEventHandlers (cb : ControllerBuilder) : Run ControllerBuilder :=
  (emit (.enter .AddEventHandlers) cb).next fun cb =>
  (emit (.log 0 "Setting up event handlers") cb).next fun cb =>
  (startActions cb.actions cb).next
    returnBuilder

/-- The method `Build`; it returns `cb.controller`. -/
def Build (env : Env) (cb : ControllerBuilder) : Run Controller :=
  (Initailize env cb).next fun cb =>
  (AddClientsets cb).next fun cb =>
  (AddListers cb).next fun cb =>
  (RegisterEventHandlers cb).next fun cb =>
  (AddEventHandlers cb).next fun cb =>
  ⟨[], cb, .ok cb.controller⟩

/-! ## Reading a run -/

/-- The kinds registered by a run, in order. -/
def registrations : List Event → List Kind
  | [] => []
  | .register k :: es => k :: registrations es
  | _ :: es => registrations es

/-- The actions started as goroutines by a run, in order. -/
def started : List Event → List ControllerFunc
  | [] => []
  | .go a :: es => a :: started es
  | _ :: es => started es

/-- The stages entered by a run, in order. -/
def stages : List Event → List Stage
  | [] => []
  | .enter s :: es => s :: stages es
  | _ :: es => stages es

/-- The controller fields assigned by a run, in order. -/
def assigned : List Event → List Field
  | [] => []
  | .set f :: es => f :: assigned es
  | _ :: es => assigned es

/-- A sample config: ten informers and three clientsets, all distinct. -/
def sampleConfig : BuilderConfig :=
  { incluster := true
    kubeclientset := ⟨1⟩, submarineclientset := ⟨2⟩, traefikclientset := ⟨3⟩
    submarineInformer := ⟨10⟩, namespaceInformer := ⟨11⟩, deploymentInformer := ⟨12⟩
    serviceInformer := ⟨13⟩, serviceaccountInformer := ⟨14⟩
    persistentvolumeclaimInformer := ⟨15⟩, ingressInformer := ⟨16⟩
    ingressrouteInformer := ⟨17⟩, roleInformer := ⟨18⟩, rolebindingInformer := ⟨19⟩
    backoffBaseDelay := 5, backoffCapDelay := 1000 }

/-- A sample environment in which the scheme registration succeeds; times are
in milliseconds: per-key delays from 5 ms up to 1000 s, a bucket of 100 tokens
refilled with one token every 100 ms. -/
def sampleEnv : Env :=
  { addToSchemeErr := none, controllerAgentName := "submarine-controller"
    defaultBaseDelay := 5, defaultMaxDelay := 1000000
    bucketInterval := 100, bucketBurst := 100 }

/-- The controller `Build` leaves behind, field by field. -/
def builtController (env : Env) (config : BuilderConfig) : Controller :=
  { kubeclientset := some config.kubeclientset
    submarineclientset := some config.submarineclientset
    traefikclientset := some config.traefikclientset
    submarinesLister := some config.submarineInformer.Lister
    submarinesSynced := some config.submarineInformer.HasSynced
    namespaceLister := some config.namespaceInformer.Lister
    deploymentLister := some config.deploymentInformer.Lister
    serviceLister := some config.serviceInformer.Lister
    serviceaccountLister := some config.serviceaccountInformer.Lister
    persistentvolumeclaimLister := some config.persistentvolumeclaimInformer.Lister
    ingressLister := some config.ingressInformer.Lister
    ingressrouteLister := some config.ingressrouteInformer.Lister
    roleLister := some config.roleInformer.Lister
    rolebindingLister := some config.rolebindingInformer.Lister
    workqueue := some (NewNamedRateLimitingQueue (DefaultControllerRateLimiter env) "Submarines")
    recorder := some ⟨env.controllerAgentName, config.kubeclientset⟩
    incluster := config.incluster }

/-- The events of `Build` up to the first registration: `Initailize`,
`AddClientsets`, `AddListers` and the entry of `RegisterEventHandlers`. -/
def eventsBeforeRegistration (env : Env) (config : BuilderConfig) : List Event :=
  [.enter .Initailize, .addToScheme, .log 4 "Creating event broadcaster", .newBroadcaster,
   .startStructuredLogging 0, .startRecordingToSink config.kubeclientset,
   .newRecorder env.controllerAgentName, .newQueue "Submarines",
   .set .incluster, .set .recorder, .set .workqueue,
   .enter .AddClientsets,
   .set .kubeclientset, .set .submarineclientset, .set .traefikclientset,
   .enter .AddListers,
   .set .submarinesLister, .set .submarinesSynced, .set .deploymentLister, .set .namespaceLister,
   .set .serviceLister, .set .serviceaccountLister, .set .persistentvolumeclaimLister,
   .set .ingressLister, .set .ingressrouteLister, .set .roleLister, .set .rolebindingLister,
   .enter .RegisterEventHandlers]

/-- The ten registration events of `RegisterEventHandlers`. -/
def registrationEvents : List Event :=
  [.register .Submarine, .register .Namespace, .register .Deployment, .register .Service,
   .register .ServiceAccount, .register .PersistentVolumeClaim, .register .Ingress,
   .register .IngressRoute, .register .Role, .register .RoleBinding]

/-- Modelled from the spec: the start gate of §4.4, "starts only after all
Cache Sync States are true", evaluated over the signals recorded on the
controller; `synced` tells which informers completed their initial listing.
The method that runs the gate is not part of the sources. -/
def startGate (synced : Informer → Bool) (c : Controller) : Bool :=
  c.syncedSignals.all (fun s => synced s.source)

/-- The delay after `e` earlier failures: the base delay doubled `e` times,
capped at the maximum. -/
def backoffDelay (baseDelay maxDelay e : Nat) : Nat :=
  if baseDelay * 2 ^ e > maxDelay then maxDelay else baseDelay * 2 ^ e

/-- A second sample config: the sample config with other backoff delays. -/
def sampleConfigSlow : BuilderConfig :=
  { sampleConfig with backoffBaseDelay := 50, backoffCapDelay := 2000 }

/-- An event storm: `n` distinct keys that all fail at time 0. -/
def storm (n : Nat) : List (Nat × String) :=
  (List.range n).map (fun i => (0, "ns/env" ++ toString i))

/-- The bucket after reservations at the given times. -/
def BucketRateLimiter.reserveAll (b : BucketRateLimiter) : List Nat → BucketRateLimiter
  | [] => b
  | now :: rest => BucketRateLimiter.reserveAll (b.When now).2 rest

/-! ## Lemmas on the work queue -/

theorem RateLimitingQueue.Add_of_mem_dirty (q : RateLimitingQueue) (item : String)
    (h : item ∈ q.dirty) : q.Add item = q := by
  unfold RateLimitingQueue.Add
  by_cases hs : q.shuttingDown = true
  · simp [hs]
  · simp [hs, h]

theorem RateLimitingQueue.addTimes_of_mem_dirty (item : String) (k : Nat) :
    ∀ q : RateLimitingQueue, item ∈ q.dirty → q.addTimes item k = q := by
  induction k with
  | zero => intro q _; rfl
  | succ k ih =>
    intro q h
    simp only [RateLimitingQueue.addTimes]
    rw [RateLimitingQueue.Add_of_mem_dirty q item h]
    exact ih q h

theorem Initailize_workqueue (env : Env) (cb : ControllerBuilder)
    (h : env.addToSchemeErr = none) :
    (Initailize env cb).cb.controller.workqueue =
      some (NewNamedRateLimitingQueue (DefaultControllerRateLimiter env) "Submarines") := by
  simp [Initailize, Run.next, emit, assign, returnBuilder, Must, h]

theorem started_startActions (acts : List (String × ControllerFunc)) :
    ∀ cb : ControllerBuilder,
      (startActions acts cb).events = acts.map (fun kv => Event.go kv.2) ∧
      (startActions acts cb).cb = cb ∧ (startActions acts cb).result = .ok () := by
  induction acts with
  | nil => intro cb; exact ⟨rfl, rfl, rfl⟩
  | cons a rest ih =>
    intro cb
    obtain ⟨key, action⟩ := a
    have h := ih cb
    simp [startActions, Run.next, emit, h.1, h.2.1, h.2.2]

theorem started_map_go (l : List (String × ControllerFunc)) :
    started (l.map (fun kv => Event.go kv.2)) = l.map Prod.snd := by
  induction l with
  | nil => rfl
  | cons a rest ih => simp [started, ih]

theorem registrations_map_go (l : List (String × ControllerFunc)) :
    registrations (l.map (fun kv => Event.go kv.2)) = [] := by
  induction l with
  | nil => rfl
  | cons a rest ih => simp [registrations, ih]

theorem assigned_map_go (l : List (String × ControllerFunc)) :
    assigned (l.map (fun kv => Event.go kv.2)) = [] := by
  induction l with
  | nil => rfl
  | cons a rest ih => simp [assigned, ih]

theorem stages_map_go (l : List (String × ControllerFunc)) :
    stages (l.map (fun kv => Event.go kv.2)) = [] := by
  induction l with
  | nil => rfl
  | cons a rest ih => simp [stages, ih]

/-! ## Lemmas on the rate limiter -/

theorem backoffDelay_le_max (b m e : Nat) : backoffDelay b m e ≤ m := by
  unfold backoffDelay
  split <;> omega

theorem backoffDelay_mono (b m e : Nat) : backoffDelay b m e ≤ backoffDelay b m (e + 1) := by
  have h : b * 2 ^ e ≤ b * 2 ^ (e + 1) :=
    Nat.mul_le_mul_left b (Nat.pow_le_pow_right (by decide) (Nat.le_succ e))
  unfold backoffDelay
  split <;> split <;> omega

theorem ItemExponentialFailureRateLimiter.When_fst (r : ItemExponentialFailureRateLimiter) (item : String) :
    (r.When item).1 = backoffDelay r.baseDelay r.maxDelay (r.NumRequeues item) := by
  unfold ItemExponentialFailureRateLimiter.When backoffDelay
  simp only []
  split <;> rfl

theorem ItemExponentialFailureRateLimiter.When_snd (r : ItemExponentialFailureRateLimiter) (item : String) :
    (r.When item).2.NumRequeues item = r.NumRequeues item + 1 ∧
      (r.When item).2.baseDelay = r.baseDelay ∧ (r.When item).2.maxDelay = r.maxDelay := by
  unfold ItemExponentialFailureRateLimiter.When
  simp only []
  split <;> simp [ItemExponentialFailureRateLimiter.NumRequeues, List.lookup]

theorem ItemExponentialFailureRateLimiter.delays_head (r : ItemExponentialFailureRateLimiter) (item : String) (n : Nat) :
    ∀ y ∈ (r.delays item n).head?,
      backoffDelay r.baseDelay r.maxDelay (r.NumRequeues item) ≤ y := by
  cases n with
  | zero => intro y hy; simp [ItemExponentialFailureRateLimiter.delays] at hy
  | succ n =>
    intro y hy
    simp only [ItemExponentialFailureRateLimiter.delays, List.head?_cons, Option.mem_def, Option.some.injEq] at hy
    rw [← hy, ItemExponentialFailureRateLimiter.When_fst]

theorem ItemExponentialFailureRateLimiter.delays_chain (item : String) (n : Nat) :
    ∀ r : ItemExponentialFailureRateLimiter, List.Chain' (· ≤ ·) (r.delays item n) ∧
      ∀ d ∈ r.delays item n, d ≤ r.maxDelay := by
  induction n with
  | zero => intro r; simp [ItemExponentialFailureRateLimiter.delays]
  | succ n ih =>
    intro r
    obtain ⟨hn, hb, hm⟩ := ItemExponentialFailureRateLimiter.When_snd r item
    obtain ⟨hc, hle⟩ := ih (r.When item).2
    simp only [ItemExponentialFailureRateLimiter.delays]
    constructor
    · rw [List.chain'_cons']
      refine ⟨?_, hc⟩
      intro y hy
      have := ItemExponentialFailureRateLimiter.delays_head (r.When item).2 item n y hy
      rw [hn, hb, hm] at this
      rw [ItemExponentialFailureRateLimiter.When_fst]
      exact le_trans (backoffDelay_mono _ _ _) this
    · intro d hd
      rcases List.mem_cons.mp hd with rfl | hd
      · rw [ItemExponentialFailureRateLimiter.When_fst]; exact backoffDelay_le_max _ _ _
      · rw [← hm]; exact hle d hd

theorem backoffDelay_eq_min (b m e : Nat) : backoffDelay b m e = min (b * 2 ^ e) m := by
  unfold backoffDelay
  split <;> omega

theorem ItemExponentialFailureRateLimiter.delays_length (item : String) (n : Nat) :
    ∀ r : ItemExponentialFailureRateLimiter, (r.delays item n).length = n := by
  induction n with
  | zero => intro r; rfl
  | succ n ih => intro r; simp [ItemExponentialFailureRateLimiter.delays, ih]

theorem ItemExponentialFailureRateLimiter.delays_eq (item : String) (n : Nat) :
    ∀ r : ItemExponentialFailureRateLimiter, r.delays item n =
      (List.range n).map
        (fun i => min (r.baseDelay * 2 ^ (r.NumRequeues item + i)) r.maxDelay) := by
  induction n with
  | zero => intro r; rfl
  | succ n ih =>
    intro r
    obtain ⟨hn, hb, hm⟩ := ItemExponentialFailureRateLimiter.When_snd r item
    rw [List.range_succ_eq_map]
    simp only [ItemExponentialFailureRateLimiter.delays, List.map_cons, List.map_map]
    rw [ih, hn, hb, hm, ItemExponentialFailureRateLimiter.When_fst, backoffDelay_eq_min]
    congr 1
    apply List.map_congr_left
    intro i _
    simp only [Function.comp, Nat.succ_eq_add_one]
    congr 3
    omega

theorem lookup_filter_ne (item other : String) (hne : other ≠ item) :
    ∀ l : List (String × Nat),
      List.lookup item (l.filter (fun kv => kv.1 != other)) = List.lookup item l := by
  intro l
  induction l with
  | nil => rfl
  | cons a rest ih =>
    obtain ⟨k, v⟩ := a
    by_cases hk : k = other
    · subst hk
      have h1 : (item == k) = false := by simpa using fun h => hne h.symm
      simp [List.filter, List.lookup, h1, ih]
    · have h2 : (k != other) = true := by simpa using hk
      simp only [List.filter, h2, List.lookup]
      rw [ih]

theorem ItemExponentialFailureRateLimiter.When_other (r : ItemExponentialFailureRateLimiter)
    (item other : String) (hne : other ≠ item) :
    (r.When other).2.NumRequeues item = r.NumRequeues item ∧
      (r.When other).2.baseDelay = r.baseDelay ∧ (r.When other).2.maxDelay = r.maxDelay := by
  have h1 : (item == other) = false := by simpa using fun h => hne h.symm
  unfold ItemExponentialFailureRateLimiter.When
  simp only []
  split <;>
    simp [ItemExponentialFailureRateLimiter.NumRequeues, List.lookup, h1,
      lookup_filter_ne item other hne]

theorem MaxOfRateLimiter.When_delay (r : MaxOfRateLimiter) (now : Nat) (item : String) :
    (r.When now item).1 =
      max (min (r.perItem.baseDelay * 2 ^ r.perItem.NumRequeues item) r.perItem.maxDelay)
        (r.overall.When now).1 := by
  simp only [MaxOfRateLimiter.When, ItemExponentialFailureRateLimiter.When_fst,
    backoffDelay_eq_min]

theorem MaxOfRateLimiter.delaysAt_eq (item : String) (times : List Nat) :
    ∀ r : MaxOfRateLimiter, r.delaysAt item times =
      List.zipWith max (r.perItem.delays item times.length) (r.overall.waits times) := by
  induction times with
  | nil => intro r; rfl
  | cons now rest ih =>
    intro r
    simp only [MaxOfRateLimiter.delaysAt, List.length_cons,
      ItemExponentialFailureRateLimiter.delays, BucketRateLimiter.waits, List.zipWith_cons_cons]
    rw [ih]
    rfl

theorem MaxOfRateLimiter.failAll_overall (sched : List (Nat × String)) :
    ∀ r : MaxOfRateLimiter,
      (r.failAll sched).overall = r.overall.reserveAll (sched.map Prod.fst) := by
  induction sched with
  | nil => intro r; rfl
  | cons a rest ih =>
    intro r
    obtain ⟨now, k⟩ := a
    simp only [MaxOfRateLimiter.failAll, List.map_cons, BucketRateLimiter.reserveAll]
    rw [ih]
    rfl

theorem MaxOfRateLimiter.failAll_perItem (item : String) (sched : List (Nat × String)) :
    ∀ r : MaxOfRateLimiter, (∀ a ∈ sched, a.2 ≠ item) →
      (r.failAll sched).perItem.NumRequeues item = r.perItem.NumRequeues item ∧
      (r.failAll sched).perItem.baseDelay = r.perItem.baseDelay ∧
      (r.failAll sched).perItem.maxDelay = r.perItem.maxDelay := by
  induction sched with
  | nil => intro r _; exact ⟨rfl, rfl, rfl⟩
  | cons a rest ih =>
    intro r h
    obtain ⟨now, k⟩ := a
    have hk : k ≠ item := h (now, k) (List.mem_cons_self _ _)
    have hrest : ∀ a ∈ rest, a.2 ≠ item := fun a ha => h a (List.mem_cons_of_mem _ ha)
    obtain ⟨h1, h2, h3⟩ := ih (r.When now k).2 hrest
    obtain ⟨w1, w2, w3⟩ := ItemExponentialFailureRateLimiter.When_other r.perItem item k hk
    simp only [MaxOfRateLimiter.failAll]
    rw [h1, h2, h3]
    exact ⟨w1, w2, w3⟩

theorem bucket_step (A I C cap E : Int) (hE : 0 ≤ E) (hA : 0 ≤ A) (h1 : A + I ≤ C)
    (h2 : A + I ≤ cap) : A ≤ min cap (C + E) - I ∧ 0 ≤ min cap (C + E) - I := by
  have hm : A + I ≤ min cap (C + E) := le_min h2 (by omega)
  constructor <;> omega

theorem BucketRateLimiter.waits_zero (times : List Nat) :
    ∀ b : BucketRateLimiter,
      ((times.length * b.interval : Nat) : Int) ≤ b.credit →
      times.length * b.interval ≤ b.burst * b.interval →
      b.waits times = List.replicate times.length 0 := by
  induction times with
  | nil => intro b _ _; rfl
  | cons now rest ih =>
    intro b h1 h2
    simp only [List.length_cons] at h1 h2
    have hmul : (rest.length + 1) * b.interval = rest.length * b.interval + b.interval := by
      ring
    rw [hmul] at h1 h2
    have h2i : ((rest.length * b.interval + b.interval : Nat) : Int) ≤
        ((b.burst * b.interval : Nat) : Int) := by exact_mod_cast h2
    have hstep := bucket_step ((rest.length * b.interval : Nat) : Int) (b.interval : Int)
      b.credit ((b.burst * b.interval : Nat) : Int)
      ((now - (if now < b.last then now else b.last) : Nat) : Int)
      (Int.ofNat_nonneg _) (Int.ofNat_nonneg _) (by exact_mod_cast h1) (by exact_mod_cast h2i)
    have hc : ((rest.length * b.interval : Nat) : Int) ≤ (b.When now).2.credit := hstep.1
    have hw : (b.When now).1 = 0 := by
      have hnn : ¬ (b.When now).2.credit < 0 := not_lt.mpr hstep.2
      simp only [BucketRateLimiter.When] at hnn ⊢
      rw [if_neg hnn]
    have hb : rest.length * (b.When now).2.interval ≤
        (b.When now).2.burst * (b.When now).2.interval := by
      show rest.length * b.interval ≤ b.burst * b.interval
      omega
    simp only [BucketRateLimiter.waits, List.length_cons, List.replicate_succ, hw]
    rw [ih (b.When now).2 hc hb]

theorem BucketRateLimiter.reserveAll_same (n : Nat) :
    ∀ b : BucketRateLimiter, b.credit ≤ ((b.burst * b.interval : Nat) : Int) →
      b.reserveAll (List.replicate n b.last) =
        { b with credit := b.credit - ((n * b.interval : Nat) : Int) } := by
  induction n with
  | zero => intro b _; simp [BucketRateLimiter.reserveAll]
  | succ n ih =>
    intro b hb
    have hstep : (b.When b.last).2 = { b with credit := b.credit - (b.interval : Int) } := by
      simp only [BucketRateLimiter.When, lt_irrefl, if_false, Nat.sub_self, Nat.cast_zero,
        add_zero, min_eq_right hb]
    simp only [List.replicate_succ, BucketRateLimiter.reserveAll]
    rw [hstep]
    have hb2 : ({ b with credit := b.credit - (b.interval : Int) } : BucketRateLimiter).credit ≤
        ((b.burst * b.interval : Nat) : Int) := by
      show b.credit - (b.interval : Int) ≤ _
      have := Int.ofNat_nonneg b.interval
      omega
    have := ih { b with credit := b.credit - (b.interval : Int) } hb2
    simp only at this
    rw [this]
    congr 1
    push_cast
    ring

theorem storm_times (n : Nat) : (storm n).map Prod.fst = List.replicate n 0 := by
  simp [storm, Function.comp_def]

theorem storm_keys (n : Nat) : ∀ a ∈ storm n, a.2 ≠ "ns/foo" := by
  intro a ha
  simp only [storm, List.mem_map, List.mem_range] at ha
  obtain ⟨i, _, rfl⟩ := ha
  intro h
  have hd := congrArg String.data h
  simp [String.data_append] at hd

theorem storm_overall (env : Env) (n : Nat) :
    ((DefaultControllerRateLimiter env).failAll (storm n)).overall =
      { interval := env.bucketInterval, burst := env.bucketBurst, last := 0,
        credit := ((env.bucketBurst * env.bucketInterval : Nat) : Int) -
          ((n * env.bucketInterval : Nat) : Int) } := by
  rw [MaxOfRateLimiter.failAll_overall, storm_times]
  exact BucketRateLimiter.reserveAll_same n (DefaultControllerRateLimiter env).overall
    (le_refl _)

theorem storm_perItem (env : Env) (n : Nat) :
    ((DefaultControllerRateLimiter env).failAll (storm n)).perItem.NumRequeues "ns/foo" = 0 ∧
      ((DefaultControllerRateLimiter env).failAll (storm n)).perItem.baseDelay =
        env.defaultBaseDelay ∧
      ((DefaultControllerRateLimiter env).failAll (storm n)).perItem.maxDelay =
        env.defaultMaxDelay :=
  MaxOfRateLimiter.failAll_perItem "ns/foo" (storm n) (DefaultControllerRateLimiter env)
    (storm_keys n)

theorem Initailize_rateLimiter (env : Env) (cb : ControllerBuilder)
    (h : env.addToSchemeErr = none) :
    (Initailize env cb).cb.controller.workqueue.map (fun wq => wq.rateLimiter) =
      some (DefaultControllerRateLimiter env) := by
  rw [Initailize_workqueue env cb h]
  rfl

theorem BucketRateLimiter.waits_length (times : List Nat) :
    ∀ b : BucketRateLimiter, (b.waits times).length = times.length := by
  induction times with
  | nil => intro b; rfl
  | cons now rest ih => intro b; simp [BucketRateLimiter.waits, ih]

theorem zipWith_max_zero (l : List Nat) :
    List.zipWith max l (List.replicate l.length 0) = l := by
  induction l with
  | nil => rfl
  | cons a rest ih => simp [List.replicate_succ, ih]

theorem fresh_delaysAt (env : Env) (key : String) (times : List Nat)
    (hN : times.length ≤ env.bucketBurst) :
    (DefaultControllerRateLimiter env).delaysAt key times =
      (DefaultControllerRateLimiter env).perItem.delays key times.length := by
  have hw : (DefaultControllerRateLimiter env).overall.waits times =
      List.replicate times.length 0 :=
    BucketRateLimiter.waits_zero times (DefaultControllerRateLimiter env).overall
      (by
        show ((times.length * env.bucketInterval : Nat) : Int) ≤
          ((env.bucketBurst * env.bucketInterval : Nat) : Int)
        exact_mod_cast Nat.mul_le_mul_right _ hN)
      (Nat.mul_le_mul_right _ hN)
  rw [MaxOfRateLimiter.delaysAt_eq, hw]
  have hl := ItemExponentialFailureRateLimiter.delays_length key times.length
    (DefaultControllerRateLimiter env).perItem
  have hz := zipWith_max_zero ((DefaultControllerRateLimiter env).perItem.delays key times.length)
  rw [hl] at hz
  exact hz

theorem Build_run (env : Env) (cb : ControllerBuilder) (h : env.addToSchemeErr = none) :
    (Build env cb).events =
        eventsBeforeRegistration env cb.config ++ registrationEvents ++
          [.enter .AddEventHandlers, .log 0 "Setting up event handlers"] ++
          cb.actions.map (fun kv => Event.go kv.2) ∧
      (Build env cb).result = .ok (builtController env cb.config) ∧
      (Build env cb).cb = { cb with controller := builtController env cb.config } := by
  have hs := fun b => started_startActions cb.actions b
  simp [Build, Initailize, AddClientsets, AddListers, RegisterEventHandlers,
    AddEventHandlers, RegisterSubmarineEventHandlers, RegisterNamespaceEventHandlers,
    RegisterDeploymentEventHandlers, RegisterServiceEventHandlers,
    RegisterServiceAccountEventHandlers, RegisterPersistentVolumeClaimEventHandlers,
    RegisterIngressEventHandlers, RegisterIngressRouteEventHandlers,
    RegisterRoleEventHandlers, RegisterRoleBindingEventHandlers, registerKind,
    Run.next, emit, assign, returnBuilder, Must, h, hs, builtController,
    eventsBeforeRegistration, registrationEvents]

/-! ## The claims -/

/-- C1: for every builder, `RegisterEventHandlers` performs one registration
for each of the ten watched kinds, Submarine first and then the nine owned kinds
in the order of the source; every kind is registered exactly once, and the
call returns the builder it was called on, unchanged. -/
theorem RegisterEventHandlers_registers_every_kind (cb : ControllerBuilder) :
    registrations (RegisterEventHandlers cb).events =
        [.Submarine, .Namespace, .Deployment, .Service, .ServiceAccount,
         .PersistentVolumeClaim, .Ingress, .IngressRoute, .Role, .RoleBinding] ∧
      (registrations (RegisterEventHandlers cb).events).head? = some Kind.Submarine ∧
      (∀ k : Kind, (registrations (RegisterEventHandlers cb).events).count k = 1) ∧
      (RegisterEventHandlers cb).result = .ok cb ∧
      (RegisterEventHandlers cb).cb = cb := by
  have hev : registrations (RegisterEventHandlers cb).events =
      [.Submarine, .Namespace, .Deployment, .Service, .ServiceAccount,
       .PersistentVolumeClaim, .Ingress, .IngressRoute, .Role, .RoleBinding] := rfl
  refine ⟨hev, ?_, ?_, rfl, rfl⟩
  · rw [hev]; rfl
  · intro k
    rw [hev]
    cases k <;> decide

/-- C3: the queue `Initailize` puts on the controller is the queue named
"Submarines", and adding one key to it `K ≥ 1` times before any dequeue leaves
exactly one pending item, that key: the length is 1, and one more `Add` of the
key leaves the queue as it is. -/
theorem workqueue_deduplicates (env : Env) (cb : ControllerBuilder) (key : String) (K : Nat)
    (h : env.addToSchemeErr = none) (hK : 1 ≤ K) :
    ∃ wq : RateLimitingQueue,
      (Initailize env cb).cb.controller.workqueue = some wq ∧
      wq.name = "Submarines" ∧
      (wq.addTimes key K).Len = 1 ∧
      (wq.addTimes key K).queue = [key] ∧
      (wq.addTimes key (K + 1)) = wq.addTimes key K ∧
      (wq.addTimes key K).Add key = wq.addTimes key K := by
  refine ⟨_, Initailize_workqueue env cb h, rfl, ?_⟩
  obtain ⟨k, rfl⟩ : ∃ k, K = k + 1 := ⟨K - 1, by omega⟩
  have hadd : (NewNamedRateLimitingQueue (DefaultControllerRateLimiter env) "Submarines").Add key =
      { NewNamedRateLimitingQueue (DefaultControllerRateLimiter env) "Submarines" with
        dirty := [key], queue := [key] } := by
    simp [RateLimitingQueue.Add, NewNamedRateLimitingQueue]
  have hmem : key ∈ ({ NewNamedRateLimitingQueue (DefaultControllerRateLimiter env) "Submarines" with
        dirty := [key], queue := [key] } : RateLimitingQueue).dirty := by simp
  have hk : ∀ n, (NewNamedRateLimitingQueue (DefaultControllerRateLimiter env) "Submarines").addTimes
      key (n + 1) = { NewNamedRateLimitingQueue (DefaultControllerRateLimiter env) "Submarines" with
        dirty := [key], queue := [key] } := by
    intro n
    simp only [RateLimitingQueue.addTimes]
    rw [hadd]
    exact RateLimitingQueue.addTimes_of_mem_dirty key n _ hmem
  rw [hk (k + 1), hk k]
  exact ⟨rfl, rfl, rfl, RateLimitingQueue.Add_of_mem_dirty _ key hmem⟩

/-- Witness of C3: the key "ns/foo" added three times to the queue of a
builder made from the sample config. -/
theorem workqueue_deduplicates_witness :
    ∃ wq : RateLimitingQueue,
      (Initailize sampleEnv (NewControllerBuilder sampleConfig)).cb.controller.workqueue = some wq ∧
      wq.name = "Submarines" ∧
      (wq.addTimes "ns/foo" 3).Len = 1 ∧
      (wq.addTimes "ns/foo" 3).queue = ["ns/foo"] ∧
      (wq.addTimes "ns/foo" (3 + 1)) = wq.addTimes "ns/foo" 3 ∧
      (wq.addTimes "ns/foo" 3).Add "ns/foo" = wq.addTimes "ns/foo" 3 :=
  workqueue_deduplicates sampleEnv (NewControllerBuilder sampleConfig) "ns/foo" 3 rfl (by decide)

/-- C6: for every builder, `AddEventHandlers` starts exactly the actions of the
entries of the actions map, one goroutine per entry, so as many as the map has
entries; on a builder fresh from `NewControllerBuilder` it starts none; it
returns the builder it was called on, with the actions map and everything else
unchanged. -/
theorem AddEventHandlers_starts_each_action_once (cb : ControllerBuilder) :
    started (AddEventHandlers cb).events = cb.actions.map Prod.snd ∧
      (started (AddEventHandlers cb).events).length = cb.actions.length ∧
      (∀ config : BuilderConfig,
        started (AddEventHandlers (NewControllerBuilder config)).events = []) ∧
      (AddEventHandlers cb).result = .ok cb ∧
      (AddEventHandlers cb).cb = cb ∧
      (AddEventHandlers cb).cb.actions = cb.actions := by
  have h := started_startActions cb.actions cb
  have hs : started (AddEventHandlers cb).events = cb.actions.map Prod.snd := by
    simp [AddEventHandlers, Run.next, emit, returnBuilder, h.1, h.2.1, h.2.2, started,
      started_map_go]
  refine ⟨hs, ?_, ?_, ?_, ?_, ?_⟩
  · rw [hs]; simp
  · intro config; rfl
  · simp [AddEventHandlers, Run.next, emit, returnBuilder, h.1, h.2.1, h.2.2]
  · simp [AddEventHandlers, Run.next, emit, returnBuilder, h.1, h.2.1, h.2.2]
  · simp [AddEventHandlers, Run.next, emit, returnBuilder, h.1, h.2.1, h.2.2]

/-- C4, counterexample: on the limiter `Initailize` installs, with the
constants of the sample environment (times in milliseconds), after a storm of
101 other keys failing at once the key "ns/foo" fails at time 0 and again at
time 200: its two consecutive delays are 200 and then 100, so they decrease;
after a storm of 10101 keys its delay is 1000200, above the maximum delay
1000000 of the limiter. -/
theorem backoff_delays_counterexample :
    (Initailize sampleEnv (NewControllerBuilder sampleConfig)).cb.controller.workqueue.map
        (fun wq => wq.rateLimiter) = some (DefaultControllerRateLimiter sampleEnv) ∧
      ((DefaultControllerRateLimiter sampleEnv).failAll (storm 101)).delaysAt "ns/foo" [0, 200] =
        [200, 100] ∧
      ¬ List.Chain' (· ≤ ·)
        (((DefaultControllerRateLimiter sampleEnv).failAll (storm 101)).delaysAt "ns/foo"
          [0, 200]) ∧
      (((DefaultControllerRateLimiter sampleEnv).failAll (storm 10101)).When 0 "ns/foo").1 =
        1000200 ∧
      ¬ (((DefaultControllerRateLimiter sampleEnv).failAll (storm 10101)).When 0 "ns/foo").1 ≤
        sampleEnv.defaultMaxDelay := by
  have hd : ((DefaultControllerRateLimiter sampleEnv).failAll (storm 101)).delaysAt "ns/foo"
      [0, 200] = [200, 100] := by
    obtain ⟨hn, hb, hm⟩ := storm_perItem sampleEnv 101
    rw [MaxOfRateLimiter.delaysAt_eq, ItemExponentialFailureRateLimiter.delays_eq, hn, hb, hm,
      storm_overall]
    decide
  have hw : (((DefaultControllerRateLimiter sampleEnv).failAll (storm 10101)).When 0
      "ns/foo").1 = 1000200 := by
    obtain ⟨hn, hb, hm⟩ := storm_perItem sampleEnv 10101
    rw [MaxOfRateLimiter.When_delay, hn, hb, hm, storm_overall]
    decide
  refine ⟨Initailize_rateLimiter sampleEnv _ rfl, hd, ?_, hw, ?_⟩
  · rw [hd]
    intro hc
    rw [List.chain'_cons] at hc
    exact absurd hc.1 (by decide)
  · rw [hw]; decide

/-- C4, amended: the limiter `Initailize` installs is the maximum of a per-key
exponential limiter and an overall bucket shared by all keys.  On the fresh
limiter, as long as the number of consecutive failures of a key is at most the
size of the bucket, the delays are the per-key backoffs: the i-th is the base
delay doubled i times and capped at the maximum delay, there is one per
failure, they are non-decreasing and each is at most the maximum delay.  In
every state of the limiter each delay is the larger of the per-key backoff and
the wait of the bucket, and the per-key backoffs are non-decreasing and at most
the maximum delay. -/
theorem backoff_delays_while_bucket_has_tokens (env : Env) (cb : ControllerBuilder)
    (key : String) (times : List Nat)
    (h : env.addToSchemeErr = none) (hN : times.length ≤ env.bucketBurst) :
    ∃ wq : RateLimitingQueue,
      (Initailize env cb).cb.controller.workqueue = some wq ∧
      wq.rateLimiter = DefaultControllerRateLimiter env ∧
      wq.rateLimiter.delaysAt key times =
        (List.range times.length).map
          (fun i => min (env.defaultBaseDelay * 2 ^ i) env.defaultMaxDelay) ∧
      (wq.rateLimiter.delaysAt key times).length = times.length ∧
      List.Chain' (· ≤ ·) (wq.rateLimiter.delaysAt key times) ∧
      (∀ d ∈ wq.rateLimiter.delaysAt key times, d ≤ env.defaultMaxDelay) ∧
      (∀ r : MaxOfRateLimiter,
        r.delaysAt key times =
          List.zipWith max (r.perItem.delays key times.length) (r.overall.waits times) ∧
        (r.perItem.delays key times.length).length = times.length ∧
        (r.overall.waits times).length = times.length ∧
        r.perItem.delays key times.length =
          (List.range times.length).map
            (fun i => min (r.perItem.baseDelay * 2 ^ (r.perItem.NumRequeues key + i))
              r.perItem.maxDelay) ∧
        List.Chain' (· ≤ ·) (r.perItem.delays key times.length) ∧
        (∀ d ∈ r.perItem.delays key times.length, d ≤ r.perItem.maxDelay)) := by
  have hf := fresh_delaysAt env key times hN
  have hc := ItemExponentialFailureRateLimiter.delays_chain key times.length
    (DefaultControllerRateLimiter env).perItem
  refine ⟨_, Initailize_workqueue env cb h, rfl, ?_, ?_, ?_, ?_, ?_⟩
  · show (DefaultControllerRateLimiter env).delaysAt key times = _
    rw [hf, ItemExponentialFailureRateLimiter.delays_eq]
    apply List.map_congr_left
    intro i _
    show min (env.defaultBaseDelay * 2 ^ (0 + i)) env.defaultMaxDelay = _
    rw [Nat.zero_add]
  · show ((DefaultControllerRateLimiter env).delaysAt key times).length = _
    rw [hf, ItemExponentialFailureRateLimiter.delays_length]
  · show List.Chain' (· ≤ ·) ((DefaultControllerRateLimiter env).delaysAt key times)
    rw [hf]; exact hc.1
  · show ∀ d ∈ (DefaultControllerRateLimiter env).delaysAt key times, d ≤ env.defaultMaxDelay
    rw [hf]; exact hc.2
  · intro r
    exact ⟨MaxOfRateLimiter.delaysAt_eq key times r,
      ItemExponentialFailureRateLimiter.delays_length key times.length r.perItem,
      BucketRateLimiter.waits_length times r.overall,
      ItemExponentialFailureRateLimiter.delays_eq key times.length r.perItem,
      (ItemExponentialFailureRateLimiter.delays_chain key times.length r.perItem).1,
      (ItemExponentialFailureRateLimiter.delays_chain key times.length r.perItem).2⟩

/-- Witness of C4, amended: five consecutive failures of "ns/foo" on the queue
of a builder made from the sample config, at times 0, 5, 15, 35 and 75. -/
theorem backoff_delays_while_bucket_has_tokens_witness :
    ∃ wq : RateLimitingQueue,
      (Initailize sampleEnv (NewControllerBuilder sampleConfig)).cb.controller.workqueue =
        some wq ∧
      wq.rateLimiter.delaysAt "ns/foo" [0, 5, 15, 35, 75] =
        (List.range 5).map
          (fun i => min (sampleEnv.defaultBaseDelay * 2 ^ i) sampleEnv.defaultMaxDelay) ∧
      List.Chain' (· ≤ ·) (wq.rateLimiter.delaysAt "ns/foo" [0, 5, 15, 35, 75]) ∧
      (∀ d ∈ wq.rateLimiter.delaysAt "ns/foo" [0, 5, 15, 35, 75],
        d ≤ sampleEnv.defaultMaxDelay) := by
  obtain ⟨wq, h1, _, h3, _, h5, h6, _⟩ :=
    backoff_delays_while_bucket_has_tokens sampleEnv (NewControllerBuilder sampleConfig)
      "ns/foo" [0, 5, 15, 35, 75] rfl (by decide)
  exact ⟨wq, h1, h3, h5, h6⟩

/-- C7: `Initailize` calls `AddToScheme` before anything else it does, the
creation of the recorder included.  When that call returns an error the method
panics with it through `Must`: nothing more happens, no field of the controller
is assigned, recorder and work queue are as they were.  When it returns no
error the method returns the builder, with recorder, work queue and incluster
flag of the controller set. -/
theorem Initailize_registers_scheme_first (env : Env) (cb : ControllerBuilder) :
    (∀ e : String, env.addToSchemeErr = some e →
      (Initailize env cb).result = .error e ∧
      (Initailize env cb).events = [.enter .Initailize, .addToScheme] ∧
      assigned (Initailize env cb).events = [] ∧
      (Initailize env cb).cb = cb ∧
      (Initailize env cb).cb.controller.recorder = cb.controller.recorder ∧
      (Initailize env cb).cb.controller.workqueue = cb.controller.workqueue) ∧
    (env.addToSchemeErr = none →
      (Initailize env cb).result = .ok (Initailize env cb).cb ∧
      (Initailize env cb).events =
        [.enter .Initailize, .addToScheme, .log 4 "Creating event broadcaster", .newBroadcaster,
         .startStructuredLogging 0, .startRecordingToSink cb.config.kubeclientset,
         .newRecorder env.controllerAgentName, .newQueue "Submarines",
         .set .incluster, .set .recorder, .set .workqueue] ∧
      (Initailize env cb).cb.controller.recorder =
        some ⟨env.controllerAgentName, cb.config.kubeclientset⟩ ∧
      (Initailize env cb).cb.controller.workqueue =
        some (NewNamedRateLimitingQueue (DefaultControllerRateLimiter env) "Submarines") ∧
      (Initailize env cb).cb.controller.incluster = cb.config.incluster ∧
      (Initailize env cb).cb.config = cb.config ∧
      (Initailize env cb).cb.actions = cb.actions) := by
  constructor
  · intro e h
    simp [Initailize, Run.next, emit, assign, returnBuilder, Must, h, assigned]
  · intro h
    simp [Initailize, Run.next, emit, assign, returnBuilder, Must, h]

/-- Witness of C7: a failing and a succeeding scheme registration on a builder
made from the sample config. -/
theorem Initailize_registers_scheme_first_witness :
    ((Initailize { sampleEnv with addToSchemeErr := some "duplicate type" }
        (NewControllerBuilder sampleConfig)).result = .error "duplicate type" ∧
      (Initailize { sampleEnv with addToSchemeErr := some "duplicate type" }
        (NewControllerBuilder sampleConfig)).cb.controller.recorder = none ∧
      (Initailize { sampleEnv with addToSchemeErr := some "duplicate type" }
        (NewControllerBuilder sampleConfig)).cb.controller.workqueue = none) ∧
    ((Initailize sampleEnv (NewControllerBuilder sampleConfig)).cb.controller.recorder =
        some ⟨"submarine-controller", ⟨1⟩⟩ ∧
      (Initailize sampleEnv (NewControllerBuilder sampleConfig)).cb.controller.incluster = true) := by
  have h1 := (Initailize_registers_scheme_first
    { sampleEnv with addToSchemeErr := some "duplicate type" }
    (NewControllerBuilder sampleConfig)).1 "duplicate type" rfl
  have h2 := (Initailize_registers_scheme_first sampleEnv
    (NewControllerBuilder sampleConfig)).2 rfl
  exact ⟨⟨h1.1, h1.2.2.2.2.1, h1.2.2.2.2.2⟩, ⟨h2.2.2.1, h2.2.2.2.2.1⟩⟩

/-- C9: a value set with `Incluster` does not survive `Build`: for every
config and every boolean, the controller built after `NewControllerBuilder`,
`Incluster` and `Build` has the incluster flag of the config.  `Incluster`
itself assigns the incluster flag of the controller and nothing else, and
returns the builder. -/
theorem Incluster_overwritten_by_Build (env : Env) (c : BuilderConfig) (b : Bool)
    (h : env.addToSchemeErr = none) :
    (∃ ctrl : Controller,
      ((Incluster b (NewControllerBuilder c)).next (Build env)).result = .ok ctrl ∧
      ctrl.incluster = c.incluster) ∧
    (∀ cb : ControllerBuilder,
      (Incluster b cb).cb = { cb with controller := { cb.controller with incluster := b } } ∧
      (Incluster b cb).cb.controller.incluster = b ∧
      (Incluster b cb).cb.config = cb.config ∧
      (Incluster b cb).cb.actions = cb.actions ∧
      (Incluster b cb).events = [.set .incluster] ∧
      (Incluster b cb).result = .ok (Incluster b cb).cb) := by
  constructor
  · have hb := Build_run env (Incluster b (NewControllerBuilder c)).cb h
    refine ⟨builtController env c, ?_, rfl⟩
    have hr : ((Incluster b (NewControllerBuilder c)).next (Build env)).result =
        (Build env (Incluster b (NewControllerBuilder c)).cb).result := rfl
    rw [hr, hb.2.1]
    rfl
  · intro cb
    exact ⟨rfl, rfl, rfl, rfl, rfl, rfl⟩

/-- Witness of C9: the sample config has `incluster = true`; `Incluster false`
before `Build` is lost. -/
theorem Incluster_overwritten_by_Build_witness :
    ∃ ctrl : Controller,
      ((Incluster false (NewControllerBuilder sampleConfig)).next (Build sampleEnv)).result =
        .ok ctrl ∧
      ctrl.incluster = sampleConfig.incluster :=
  (Incluster_overwritten_by_Build sampleEnv sampleConfig false rfl).1

/-- C8: when the scheme registration succeeds, `Build` runs `Initailize`,
`AddClientsets`, `AddListers`, `RegisterEventHandlers` and `AddEventHandlers`
in that order, each once and each on the builder the one before left behind,
and returns the controller of the builder with every field populated from the
config.  Its events split in three parts: first every assignment to a
controller field (work queue, clientsets and listers among them) with no
registration and no start of an action, then the ten registrations, then the
start of the actions with no registration left. -/
theorem Build_runs_stages_in_order (env : Env) (cb : ControllerBuilder)
    (h : env.addToSchemeErr = none) :
    stages (Build env cb).events =
        [.Initailize, .AddClientsets, .AddListers, .RegisterEventHandlers, .AddEventHandlers] ∧
      (Build env cb).events =
        (Initailize env cb).events ++
        (AddClientsets (Initailize env cb).cb).events ++
        (AddListers (AddClientsets (Initailize env cb).cb).cb).events ++
        (RegisterEventHandlers (AddListers (AddClientsets (Initailize env cb).cb).cb).cb).events ++
        (AddEventHandlers (RegisterEventHandlers
          (AddListers (AddClientsets (Initailize env cb).cb).cb).cb).cb).events ∧
      (Build env cb).result = .ok (Build env cb).cb.controller ∧
      (Build env cb).cb.controller = builtController env cb.config ∧
      (Build env cb).cb.config = cb.config ∧
      (Build env cb).cb.actions = cb.actions ∧
      (∃ pre regs post : List Event,
        (Build env cb).events = pre ++ regs ++ post ∧
        registrations pre = [] ∧ started pre = [] ∧
        assigned pre =
          [.incluster, .recorder, .workqueue, .kubeclientset, .submarineclientset,
           .traefikclientset, .submarinesLister, .submarinesSynced, .deploymentLister,
           .namespaceLister, .serviceLister, .serviceaccountLister,
           .persistentvolumeclaimLister, .ingressLister, .ingressrouteLister, .roleLister,
           .rolebindingLister] ∧
        registrations regs =
          [.Submarine, .Namespace, .Deployment, .Service, .ServiceAccount,
           .PersistentVolumeClaim, .Ingress, .IngressRoute, .Role, .RoleBinding] ∧
        assigned regs = [] ∧ started regs = [] ∧
        registrations post = [] ∧ assigned post = [] ∧
        started post = cb.actions.map Prod.snd) := by
  obtain ⟨hev, hres, hcb⟩ := Build_run env cb h
  have hs := fun b => started_startActions cb.actions b
  refine ⟨?_, ?_, ?_, ?_, ?_, ?_, ?_⟩
  · rw [hev]
    simp [stages, eventsBeforeRegistration, registrationEvents, stages_map_go]
  · rw [hev]
    simp [Initailize, AddClientsets, AddListers, RegisterEventHandlers,
      AddEventHandlers, RegisterSubmarineEventHandlers, RegisterNamespaceEventHandlers,
      RegisterDeploymentEventHandlers, RegisterServiceEventHandlers,
      RegisterServiceAccountEventHandlers, RegisterPersistentVolumeClaimEventHandlers,
      RegisterIngressEventHandlers, RegisterIngressRouteEventHandlers,
      RegisterRoleEventHandlers, RegisterRoleBindingEventHandlers, registerKind,
      Run.next, emit, assign, returnBuilder, Must, h, hs,
      eventsBeforeRegistration, registrationEvents]
  · rw [hres, hcb]
  · rw [hcb]
  · rw [hcb]
  · rw [hcb]
  · refine ⟨eventsBeforeRegistration env cb.config, registrationEvents,
      [.enter .AddEventHandlers, .log 0 "Setting up event handlers"] ++
        cb.actions.map (fun kv => Event.go kv.2), ?_, rfl, rfl, rfl, rfl, rfl, rfl, ?_, ?_, ?_⟩
    · rw [hev]; simp
    · simp [registrations, registrations_map_go]
    · simp [assigned, assigned_map_go]
    · simp [started, started_map_go]

/-- Witness of C8: `Build` on a builder with two actions, made from the sample
config. -/
theorem Build_runs_stages_in_order_witness :
    stages (Build sampleEnv { NewControllerBuilder sampleConfig with
        actions := [("a", ⟨1⟩), ("b", ⟨2⟩)] }).events =
      [.Initailize, .AddClientsets, .AddListers, .RegisterEventHandlers, .AddEventHandlers] ∧
    (Build sampleEnv { NewControllerBuilder sampleConfig with
        actions := [("a", ⟨1⟩), ("b", ⟨2⟩)] }).cb.controller =
      builtController sampleEnv sampleConfig := by
  have hb := Build_runs_stages_in_order sampleEnv
    { NewControllerBuilder sampleConfig with actions := [("a", ⟨1⟩), ("b", ⟨2⟩)] } rfl
  exact ⟨hb.1, hb.2.2.2.1⟩

/-- C5, counterexample: two configs that carry different backoff base and cap
delays get the same work queue from `Initailize`, with the same retry delays,
and the base and cap delay of the limiter are not those of the second config. -/
theorem backoff_from_config_counterexample :
    sampleConfig.backoffBaseDelay ≠ sampleConfigSlow.backoffBaseDelay ∧
    sampleConfig.backoffCapDelay ≠ sampleConfigSlow.backoffCapDelay ∧
    (Initailize sampleEnv (NewControllerBuilder sampleConfig)).cb.controller.workqueue =
      (Initailize sampleEnv (NewControllerBuilder sampleConfigSlow)).cb.controller.workqueue ∧
    ((Initailize sampleEnv (NewControllerBuilder sampleConfig)).cb.controller.workqueue.map
        fun wq => wq.rateLimiter.delaysAt "ns/foo" [0, 5, 15, 35]) = some [5, 10, 20, 40] ∧
    ((Initailize sampleEnv (NewControllerBuilder sampleConfigSlow)).cb.controller.workqueue.map
        fun wq => wq.rateLimiter.delaysAt "ns/foo" [0, 5, 15, 35]) = some [5, 10, 20, 40] ∧
    ((Initailize sampleEnv (NewControllerBuilder sampleConfigSlow)).cb.controller.workqueue.map
        fun wq => (wq.rateLimiter.perItem.baseDelay, wq.rateLimiter.perItem.maxDelay)) =
      some (5, 1000000) ∧
    (sampleConfigSlow.backoffBaseDelay, sampleConfigSlow.backoffCapDelay) = (50, 2000) := by
  have hd : (DefaultControllerRateLimiter sampleEnv).delaysAt "ns/foo" [0, 5, 15, 35] =
      [5, 10, 20, 40] := by
    rw [fresh_delaysAt sampleEnv "ns/foo" [0, 5, 15, 35] (by decide),
      ItemExponentialFailureRateLimiter.delays_eq]
    decide
  have h1 := Initailize_workqueue sampleEnv (NewControllerBuilder sampleConfig) rfl
  have h2 := Initailize_workqueue sampleEnv (NewControllerBuilder sampleConfigSlow) rfl
  refine ⟨by decide, by decide, ?_, ?_, ?_, ?_, rfl⟩
  · rw [h1, h2]
  · rw [h1]; exact congrArg some hd
  · rw [h2]; exact congrArg some hd
  · rw [h2]; rfl

/-- C5, amended: the work queue `Initailize` puts on the controller is built
with `workqueue.DefaultControllerRateLimiter()`: the base and maximum delay of
its limiter are the defaults of the library, whatever the builder and its
config are, so any two builders get equal queues with equal retry delays. -/
theorem workqueue_retry_policy_is_default (env : Env) (cb1 cb2 : ControllerBuilder)
    (key : String) (times : List Nat) (h : env.addToSchemeErr = none) :
    ∃ wq1 wq2 : RateLimitingQueue,
      (Initailize env cb1).cb.controller.workqueue = some wq1 ∧
      (Initailize env cb2).cb.controller.workqueue = some wq2 ∧
      wq1 = NewNamedRateLimitingQueue (DefaultControllerRateLimiter env) "Submarines" ∧
      wq1 = wq2 ∧
      wq1.rateLimiter.perItem.baseDelay = env.defaultBaseDelay ∧
      wq1.rateLimiter.perItem.maxDelay = env.defaultMaxDelay ∧
      wq1.rateLimiter.overall.interval = env.bucketInterval ∧
      wq1.rateLimiter.overall.burst = env.bucketBurst ∧
      wq1.rateLimiter.delaysAt key times = wq2.rateLimiter.delaysAt key times :=
  ⟨_, _, Initailize_workqueue env cb1 h, Initailize_workqueue env cb2 h, rfl, rfl, rfl, rfl,
    rfl, rfl, rfl⟩

/-- Witness of C5, amended: the two sample configs. -/
theorem workqueue_retry_policy_is_default_witness :
    ∃ wq1 wq2 : RateLimitingQueue,
      (Initailize sampleEnv (NewControllerBuilder sampleConfig)).cb.controller.workqueue =
        some wq1 ∧
      (Initailize sampleEnv (NewControllerBuilder sampleConfigSlow)).cb.controller.workqueue =
        some wq2 ∧
      wq1 = NewNamedRateLimitingQueue (DefaultControllerRateLimiter sampleEnv) "Submarines" ∧
      wq1 = wq2 ∧
      wq1.rateLimiter.perItem.baseDelay = sampleEnv.defaultBaseDelay ∧
      wq1.rateLimiter.perItem.maxDelay = sampleEnv.defaultMaxDelay ∧
      wq1.rateLimiter.overall.interval = sampleEnv.bucketInterval ∧
      wq1.rateLimiter.overall.burst = sampleEnv.bucketBurst ∧
      wq1.rateLimiter.delaysAt "ns/foo" [0, 5, 15, 35] =
        wq2.rateLimiter.delaysAt "ns/foo" [0, 5, 15, 35] :=
  workqueue_retry_policy_is_default sampleEnv (NewControllerBuilder sampleConfig)
    (NewControllerBuilder sampleConfigSlow) "ns/foo" [0, 5, 15, 35] rfl

/-- C2, the code at the failing input: after `AddListers` on a builder made
from the sample config, whose ten informers are distinct, the controller holds
the lister of every kind but the `HasSynced` signal of the Submarine informer
only; the signal of no owned kind is recorded, and a start gate over the
recorded signals opens as soon as the Submarine informer has synced, while the
nine other informers have not. -/
theorem AddListers_records_only_submarine_synced :
    (AddListers (NewControllerBuilder sampleConfig)).cb.controller.syncedSignals =
      [sampleConfig.submarineInformer.HasSynced] ∧
    (∀ k : Kind, (AddListers (NewControllerBuilder sampleConfig)).cb.controller.lister k =
      some (sampleConfig.informer k).Lister) ∧
    (∀ k : Kind, k ≠ .Submarine → (sampleConfig.informer k).HasSynced ∉
      (AddListers (NewControllerBuilder sampleConfig)).cb.controller.syncedSignals) ∧
    startGate (fun i => i == sampleConfig.submarineInformer)
      (AddListers (NewControllerBuilder sampleConfig)).cb.controller = true ∧
    (∀ k : Kind, k ≠ .Submarine →
      (fun i => i == sampleConfig.submarineInformer) (sampleConfig.informer k) = false) := by
  refine ⟨rfl, ?_, ?_, rfl, ?_⟩
  · intro k; cases k <;> rfl
  · intro k hk; cases k <;> first | exact absurd rfl hk | decide
  · intro k hk; cases k <;> first | exact absurd rfl hk | decide

end Submarine
